import Mathlib

/-
  Verification of the tiny-c-libs control-flow runtime.

  Shallow embedding of:
  - the setjmp/longjmp exception engine (src/except.h, src/except.c):
    the __EXCEPT_TRY stage machine (stages TRY=0, CATCH=1, FINALLY=2,
    PROPAGATE=3), __EXCEPT_CATCH / __EXCEPT_CATCH_ANY / __EXCEPT_FINALLY
    clause dispatch, __except_throw and __except_unhandled;
  - the defer/panic/recover engine (src/unnamed/part_001 = defer.h,
    src/unnamed/part_004 = defer.c): defer registration, frame
    deregistration, __defer_unwind, and the recover marking primitive
    __defer_frame_context.

  Event hooks (except_on_throw / except_on_unhandled / except_on_unexpected)
  are modelled in their default NULL state, and clause bodies are modelled
  as terminating without throwing fresh exceptions (a catch body may
  rethrow, which in the source is `break` out of the consuming for-loop).
-/

namespace TinyCLibs

/-! ## Exception engine: thread-local exception record (src/except.c:33-34)

`current_exception` is a 128-byte thread-local buffer, `current_id` a
thread-local C string pointer, NULL until the first throw.  Bytes are
modelled as `Nat`. -/

/-- EXCEPT_MAX_THROWABLE_SIZE from src/except.h:126. -/
def EXCEPT_MAX_THROWABLE_SIZE : Nat := 128

/-- The thread-local exception record: the payload buffer
`current_exception` (always 128 bytes long) and the type-tag pointer
`current_id` (`none` models NULL). -/
structure ERec where
  current_exception : List Nat
  current_id : Option String
  deriving Repr, DecidableEq

/-- The state update performed at the top of `__except_throw`
(src/except.c:146-153): when `id` is non-NULL the thrown bytes are
memcpy'd into the buffer prefix and the tag is set; when `id` is NULL
(a rethrow) the record is untouched. -/
def throwUpdate (r : ERec) (id : Option String) (bytes : List Nat) : ERec :=
  match id with
  | some tag =>
      { current_exception := bytes ++ r.current_exception.drop bytes.length,
        current_id := some tag }
  | none => r

/-! ## Try-scope clauses and bodies -/

/-- Behaviour of a guarded try body: it either completes normally or
executes `throw(tag, bytes)` (macro __EXCEPT_THROW, src/except.h:251-254),
which memcpys the value and longjmps back to the scope's setjmp with
`__except_error = 1`. -/
inductive TryAction where
  | normal
  | throws (tag : String) (bytes : List Nat)
  deriving Repr, DecidableEq

/-- Behaviour of a catch body: complete normally (the consuming for-loop
then sets `__except_error = 0`) or `rethrow()` = `break`
(src/except.h:255), which leaves `__except_error` set. -/
inductive CatchAction where
  | normal
  | rethrows
  deriving Repr, DecidableEq

/-- One clause following a try block: `catch(T, var)` carrying T's type
tag and sizeof(T), `catch_any`, or `finally`.  Clauses form the
else-if chain after the __EXCEPT_TRY header, in declaration order. -/
inductive Clause where
  | catchCl (tag : String) (size : Nat) (act : CatchAction)
  | catchAnyCl (act : CatchAction)
  | finallyCl
  deriving Repr, DecidableEq

/-- Observable body executions of one try-scope, in order.  A typed
catch records the bound value `*(T*)__except_current_exception()`
(the first sizeof(T) bytes of the buffer). -/
inductive Event where
  | tryBody
  | catchBody (idx : Nat) (bound : List Nat)
  | catchAnyBody (idx : Nat)
  | finallyBody (idx : Nat)
  deriving Repr, DecidableEq

/-- The guard of __EXCEPT_CATCH at stage CATCH with an exception pending:
`__except_personality(tag)` is `strcmp(current_id, tag) == 0`
(src/except.c:230-233); __EXCEPT_CATCH_ANY has no personality test; a
finally clause never fires at stage CATCH. -/
def clauseMatches (r : ERec) : Clause → Bool
  | .catchCl tag _ _ => r.current_id == some tag
  | .catchAnyCl _ => true
  | .finallyCl => false

/-- The guard of __EXCEPT_FINALLY at stage FINALLY. -/
def isFinallyClause : Clause → Bool
  | .finallyCl => true
  | _ => false

/-- First clause of the else-if chain satisfying `p`, with its
declaration index: the chain tests clauses in declaration order and at
most one branch of an if/else-if chain runs. -/
def findFirst (p : Clause → Bool) : List Clause → Option (Nat × Clause)
  | [] => none
  | c :: rest =>
      if p c then some (0, c)
      else (findFirst p rest).map (fun ic => (ic.1 + 1, ic.2))

/-- Machine state of one execution of the __EXCEPT_TRY for-loop:
`error` is the scope-local `__except_error`, `rec` the thread-local
exception record, `events` the bodies run so far. -/
structure MState where
  error : Bool
  erec : ERec
  events : List Event
  deriving Repr, DecidableEq

/-- Stage TRY (src/except.h:294): the guarded body runs iff
`__except_error == 0`.  A throw inside the body performs the
`__except_throw` record update and longjmps back with error = 1. -/
def stageTry (act : TryAction) (s : MState) : MState :=
  if s.error then s
  else
    match act with
    | .normal => { s with events := s.events ++ [.tryBody] }
    | .throws tag bytes =>
        { error := true,
          erec := throwUpdate s.erec (some tag) bytes,
          events := s.events ++ [.tryBody] }

/-- Stage CATCH (src/except.h:296-307): with an exception pending, the
first catch clause in declaration order whose guard holds runs; a typed
catch binds the buffer prefix; the consuming for-loop then clears
`__except_error` unless the body broke out via `rethrow()`. -/
def stageCatch (clauses : List Clause) (s : MState) : MState :=
  if s.error then
    match findFirst (clauseMatches s.erec) clauses with
    | some (i, .catchCl _ size act) =>
        { s with
          events := s.events ++ [.catchBody i (s.erec.current_exception.take size)],
          error := match act with | .normal => false | .rethrows => true }
    | some (i, .catchAnyCl act) =>
        { s with
          events := s.events ++ [.catchAnyBody i],
          error := match act with | .normal => false | .rethrows => true }
    | some (_, .finallyCl) => s
    | none => s
  else s

/-- Stage FINALLY (src/except.h:309-311): the first finally clause of
the else-if chain runs, unconditionally. -/
def stageFinally (clauses : List Clause) (s : MState) : MState :=
  match findFirst isFinallyClause clauses with
  | some (i, _) => { s with events := s.events ++ [.finallyBody i] }
  | none => s

/-- Result of one complete try-scope: the bodies run, the final
exception record, and whether stage PROPAGATE re-entered the throw
algorithm (`__except_error != 0` at src/except.h:285-288, which calls
`__except_throw(NULL, 0, NULL)` toward the next enclosing scope). -/
structure ScopeResult where
  events : List Event
  erec : ERec
  propagates : Bool
  deriving Repr, DecidableEq

/-- One iteration of the __EXCEPT_TRY stage loop body, by stage number. -/
def stageStep (clauses : List Clause) (act : TryAction) (s : MState) (stage : Nat) : MState :=
  match stage with
  | 0 => stageTry act s
  | 1 => stageCatch clauses s
  | 2 => stageFinally clauses s
  | _ => s

/-- Full run of the stage loop `for (stage = 0; stage < 4; stage++)`
for one try-scope.  `pending` is `__except_error` as observed at the
scope's setjmp return (non-zero exactly when control arrived by a
longjmp with an exception in flight).  Stage 3 (PROPAGATE) pops the
scope and, if an exception is still pending, rethrows it with a NULL
tag, leaving the record untouched (`throwUpdate _ none _`). -/
def runScope (clauses : List Clause) (pending : Bool) (rec0 : ERec)
    (act : TryAction) : ScopeResult :=
  let s := [0, 1, 2, 3].foldl (stageStep clauses act) ⟨pending, rec0, []⟩
  ⟨s.events, throwUpdate s.erec none [], s.error⟩

/-! ## Spec-side characterization of the stage order (for C1) -/

/-- Events contributed by stage TRY. -/
def tryEvents (pending : Bool) : List Event :=
  if pending then [] else [.tryBody]

/-- Whether an exception is pending after stage TRY. -/
def errorAfterTry (pending : Bool) (act : TryAction) : Bool :=
  pending || (match act with | .normal => false | .throws _ _ => true)

/-- The exception record after stage TRY. -/
def recAfterTry (pending : Bool) (rec0 : ERec) (act : TryAction) : ERec :=
  if pending then rec0
  else match act with
    | .normal => rec0
    | .throws tag bytes => throwUpdate rec0 (some tag) bytes

/-- Events contributed by stage CATCH: when an exception is pending,
exactly the first matching catch clause in declaration order
(`catch_any` matching unconditionally); nothing otherwise. -/
def catchEvents (clauses : List Clause) (error : Bool) (r : ERec) : List Event :=
  if error then
    match findFirst (clauseMatches r) clauses with
    | some (i, .catchCl _ size _) => [.catchBody i (r.current_exception.take size)]
    | some (i, .catchAnyCl _) => [.catchAnyBody i]
    | some (_, .finallyCl) => []
    | none => []
  else []

/-- Events contributed by stage FINALLY: the declared finally body,
exactly once, independent of the exception state. -/
def finallyEvents (clauses : List Clause) : List Event :=
  match findFirst isFinallyClause clauses with
  | some (i, _) => [.finallyBody i]
  | none => []

/-! ## Throw with no enclosing scope (src/except.c:169-199) -/

/-- How an execution path ends: `thrd_exit(status)` terminates only the
calling thread (contract of the thread collaborator), `abort()`
terminates the whole process. -/
inductive ExitKind where
  | threadExit (status : Int)
  | processAbort
  deriving Repr, DecidableEq

/-- EXIT_FAILURE as passed to `thrd_exit` in `__except_unhandled`. -/
def EXIT_FAILURE : Int := 1

/-- The diagnostic `__except_unhandled` prints with the default (NULL)
on-unhandled hook: `fprintf(stderr, "Unhandled exception of type
\"%s\"\n", current_id)` (src/except.c:195). -/
def unhandledMessage (r : ERec) : String :=
  "Unhandled exception of type \x22" ++
    (match r.current_id with
     | some tag => tag
     | none => "(null)") ++ "\x22\n"

/-- Outcome of `__except_throw`: either a longjmp to the most recently
pushed try-scope, or — when `*__except_current_context()` is NULL — the
`__except_unhandled` path: diagnostic output, then `thrd_exit(EXIT_FAILURE)`. -/
inductive ThrowOutcome where
  | jumped
  | unhandledTermination (diag : String) (exit : ExitKind)
  deriving Repr, DecidableEq

/-- Model of `__except_throw(id, size, exception)` (src/except.c:146-176)
with the hooks at their default NULL values: update the record (skipped
on a NULL id, i.e. a rethrow), then longjmp to the current context if
one exists, else run `__except_unhandled` (src/except.c:178-199), which
prints the pending type tag to stderr and exits the calling thread with
EXIT_FAILURE. -/
def exceptThrow (hasScope : Bool) (id : Option String) (bytes : List Nat)
    (r : ERec) : ERec × ThrowOutcome :=
  let r2 := throwUpdate r id bytes
  if hasScope then (r2, .jumped)
  else (r2, .unhandledTermination (unhandledMessage r2) (.threadExit EXIT_FAILURE))

/-! ## Deferred-cleanup engine (src/unnamed/part_001 defer.h,
src/unnamed/part_004 defer.c) -/

/-- DEFER_MAX from defer.h:8: capacity of a frame's entries array. -/
def DEFER_MAX : Nat := 16

/-- One registered (cleanup, argument) pair.  Handler and argument
identities are modelled as naturals (function pointer and void*). -/
structure DeferEntry where
  cleanup : Nat
  arg : Nat
  deriving Repr, DecidableEq

/-- A `defer_frame_t` (defer.c): the entries array with its count
(modelled as a list in registration order), the `can_recover` mark set
by the recover primitive, and the `ok` completion flag.  The `jmp_buf
context` continuation is identified with the frame itself; the `link`
pointer is the tail of the thread-local stack list. -/
structure DeferFrame where
  entries : List DeferEntry
  can_recover : Bool
  ok : Bool
  deriving Repr, DecidableEq

/-- A freshly calloc'd frame as made by `__cyg_profile_func_enter`:
all fields zero. -/
def freshFrame : DeferFrame := ⟨[], false, false⟩

/-- Outcome of `defer(cleanup, arg)`: the grown frame, or the
DEFER_FRAME_OVERFLOW diagnostic followed by `abort()` — a process-wide
termination. -/
inductive DeferOutcome where
  | registered (f : DeferFrame)
  | aborted (msg : String) (exit : ExitKind)
  deriving Repr, DecidableEq

/-- The DEFER_FRAME_OVERFLOW message printed by `__defer_msg`. -/
def overflowMessage : String := "Tried to defer more than DEFER_MAX handlers\n"

/-- Model of `defer(cleanup, arg)` (defer.c): when the current frame
already holds DEFER_MAX pairs, log DEFER_FRAME_OVERFLOW and abort the
process; otherwise store the pair at index `count` and increment
`count`. -/
def deferReg (f : DeferFrame) (cleanup arg : Nat) : DeferOutcome :=
  if f.entries.length = DEFER_MAX then
    .aborted overflowMessage .processAbort
  else
    .registered { f with entries := f.entries ++ [⟨cleanup, arg⟩] }

/-- Repeated registration of a list of pairs into a frame; `none` when
some registration aborted. -/
def registerAll (f : DeferFrame) : List (Nat × Nat) → Option DeferFrame
  | [] => some f
  | (c, a) :: rest =>
      match deferReg f c a with
      | .registered f2 => registerAll f2 rest
      | .aborted _ _ => none

/-- Observable actions of frame deregistration: handler invocations and
the final unlink of the frame from the thread-local stack. -/
inductive DAction where
  | invoke (cleanup arg : Nat)
  | unlink
  deriving Repr, DecidableEq

/-- The deregistration loop of `__defer_frame_deregister` (defer.c):
`count` is decremented and `entries[count]` invoked, `count` times —
i.e. the entry at index n-1 first, down to index 0. -/
def deregRunFrom (entries : List DeferEntry) : Nat → List DAction
  | 0 => []
  | n + 1 =>
      (match entries[n]? with
       | some e => [.invoke e.cleanup e.arg]
       | none => []) ++ deregRunFrom entries n

/-- Full observable trace of `__defer_frame_deregister(self)`: run every
pending entry (highest index first), then unlink the frame
(`__defer_frame_current = self->link`). -/
def deregisterTrace (f : DeferFrame) : List DAction :=
  deregRunFrom f.entries f.entries.length ++ [.unlink]

/-- C `longjmp(env, val)` delivers `val` to setjmp, except that a zero
`val` is delivered as 1. -/
def longjmpVal (e : Int) : Int := if e = 0 then 1 else e

/-- Result of `__defer_unwind(error, recoverable)`: either control was
transferred (longjmp) to a frame whose `can_recover` is set — carrying
the value its `recover()` (setjmp) returns, the target frame itself
(not deregistered; still the current frame), the frames below it, and
the actions run on the way — or the stack was exhausted. -/
inductive UnwindResult where
  | recovered (val : Int) (target : DeferFrame) (rest : List DeferFrame)
      (ran : List DAction)
  | exhausted (ran : List DAction)
  deriving Repr, DecidableEq

/-- Model of `__defer_unwind(error, recoverable)` (defer.c): walk the
thread-local frame stack from the innermost frame; at a frame with
`can_recover` set (when `recoverable`), longjmp to its context with
`error`; otherwise deregister the frame (running its cleanups) and
continue with its parent. -/
def unwind (error : Int) (recoverable : Bool) : List DeferFrame → UnwindResult
  | [] => .exhausted []
  | f :: rest =>
      if f.can_recover && recoverable then
        .recovered (longjmpVal error) f rest []
      else
        match unwind error recoverable rest with
        | .recovered v t r ran => .recovered v t r (deregisterTrace f ++ ran)
        | .exhausted ran => .exhausted (deregisterTrace f ++ ran)

/-- Spec-side description of the actions an unwind runs over a list of
deregistered frames, innermost first. -/
def unwoundActions : List DeferFrame → List DAction
  | [] => []
  | f :: rest => deregisterTrace f ++ unwoundActions rest

/-- Outcome of `panic(error)` (defer.c:342-374): either execution
resumes at a recovery point — the marked frame's `recover()` returns
`val`, the frame stays current with its pending cleanups intact — or
the walk exhausts the stack, the panic diagnostic is printed and the
thread exits with the error as its status (`thrd_exit(error)`). -/
inductive PanicOutcome where
  | recoveredAt (val : Int) (target : DeferFrame) (stackAfter : List DeferFrame)
      (ran : List DAction)
  | threadExited (ran : List DAction) (exit : ExitKind)
  deriving Repr, DecidableEq

/-- Model of `panic(error)`: `__defer_unwind(error, true)`; if that
returns (no recovery target), print diagnostics and `thrd_exit(error)`.
On recovery the longjmp leaves `__defer_frame_current` at the target
frame, so the remaining stack is the target followed by its parents. -/
def panicRun (error : Int) (s : List DeferFrame) : PanicOutcome :=
  match unwind error true s with
  | .recovered v t r ran => .recoveredAt v t (t :: r) ran
  | .exhausted ran => .threadExited ran (.threadExit error)

/-! ## Per-thread operation semantics of the defer stack -/

/-- The operations a thread performs on its cleanup-frame stack:
function entry (`__cyg_profile_func_enter` pushes a fresh frame),
function exit (`__cyg_profile_func_exit` deregisters and frees the
current frame), `recover()` (whose `__defer_frame_context()` call marks
the current frame), and `defer(h, a)`. -/
inductive ThreadOp where
  | enterScope
  | exitScope
  | callRecover
  | callDefer (cleanup arg : Nat)
  deriving Repr, DecidableEq

/-- Effect of one operation on the thread-local frame stack (innermost
frame first).  `none` models undefined behaviour (operating with no
current frame) or the defer-overflow process abort.  `recover()` sets
`__defer_frame_current->can_recover = true` and (re)captures the same
frame's context (defer.c:463-467); it never touches any other frame. -/
def applyOp : List DeferFrame → ThreadOp → Option (List DeferFrame)
  | s, .enterScope => some (freshFrame :: s)
  | [], .exitScope => none
  | _ :: rest, .exitScope => some rest
  | [], .callRecover => none
  | f :: rest, .callRecover => some ({ f with can_recover := true } :: rest)
  | [], .callDefer _ _ => none
  | f :: rest, .callDefer c a =>
      match deferReg f c a with
      | .registered f2 => some (f2 :: rest)
      | .aborted _ _ => none

/-- Run a sequence of operations from a given stack. -/
def runOps (s : List DeferFrame) : List ThreadOp → Option (List DeferFrame)
  | [] => some s
  | op :: rest =>
      match applyOp s op with
      | some s2 => runOps s2 rest
      | none => none

/-- Number of frames on the stack whose `can_recover` mark is set. -/
def countMarked (s : List DeferFrame) : Nat :=
  (s.filter (fun f => f.can_recover)).length

/-! ## Helper lemmas -/

theorem stageTry_run (act : TryAction) (pending : Bool) (r : ERec) (evs : List Event) :
    stageTry act ⟨pending, r, evs⟩ =
      ⟨errorAfterTry pending act, recAfterTry pending r act, evs ++ tryEvents pending⟩ := by
  cases pending <;> cases act <;>
    simp [stageTry, errorAfterTry, recAfterTry, tryEvents]

theorem stageCatch_events (clauses : List Clause) (s : MState) :
    (stageCatch clauses s).events = s.events ++ catchEvents clauses s.error s.erec := by
  rcases s with ⟨err, r, evs⟩
  cases err
  · simp [stageCatch, catchEvents]
  · rcases hf : findFirst (clauseMatches r) clauses with _ | ⟨i, c⟩
    · simp [stageCatch, catchEvents, hf]
    · cases c <;> simp [stageCatch, catchEvents, hf]

theorem stageCatch_erec (clauses : List Clause) (s : MState) :
    (stageCatch clauses s).erec = s.erec := by
  rcases s with ⟨err, r, evs⟩
  cases err
  · simp [stageCatch]
  · rcases hf : findFirst (clauseMatches r) clauses with _ | ⟨i, c⟩
    · simp [stageCatch, hf]
    · cases c <;> simp [stageCatch, hf]

theorem stageFinally_events (clauses : List Clause) (s : MState) :
    (stageFinally clauses s).events = s.events ++ finallyEvents clauses := by
  rcases hf : findFirst isFinallyClause clauses with _ | ⟨i, c⟩ <;>
    simp [stageFinally, finallyEvents, hf]

theorem runScope_foldl (clauses : List Clause) (pending : Bool) (rec0 : ERec)
    (act : TryAction) :
    runScope clauses pending rec0 act =
      ⟨(stageFinally clauses (stageCatch clauses (stageTry act ⟨pending, rec0, []⟩))).events,
       throwUpdate (stageFinally clauses (stageCatch clauses
         (stageTry act ⟨pending, rec0, []⟩))).erec none [],
       (stageFinally clauses (stageCatch clauses (stageTry act ⟨pending, rec0, []⟩))).error⟩ := by
  have h : ∀ cls s, (stageFinally cls s).error = s.error ∧ (stageFinally cls s).erec = s.erec := by
    intro cls s
    rcases hf : findFirst isFinallyClause cls with _ | ⟨i, c⟩ <;> simp [stageFinally, hf]
  simp [runScope, stageStep]

theorem deregRunFrom_append (es l : List DeferEntry) (n : Nat) (h : n ≤ es.length) :
    deregRunFrom (es ++ l) n = deregRunFrom es n := by
  induction n with
  | zero => rfl
  | succ k ih =>
      unfold deregRunFrom
      rw [ih (Nat.le_of_succ_le h), List.getElem?_append_left (Nat.lt_of_succ_le h)]

theorem deregRunFrom_eq_reverse (es : List DeferEntry) :
    deregRunFrom es es.length =
      es.reverse.map (fun e => DAction.invoke e.cleanup e.arg) := by
  induction es using List.reverseRecOn with
  | nil => rfl
  | append_singleton es e ih =>
      have hlen : (es ++ [e]).length = es.length + 1 := by simp
      rw [hlen]
      unfold deregRunFrom
      rw [deregRunFrom_append es [e] es.length (Nat.le_refl _),
        List.getElem?_append_right (Nat.le_refl _), ih]
      simp

theorem registerAll_ok (ps : List (Nat × Nat)) (f : DeferFrame)
    (h : f.entries.length + ps.length ≤ DEFER_MAX) :
    registerAll f ps =
      some { f with entries := f.entries ++ ps.map (fun p => ⟨p.1, p.2⟩) } := by
  induction ps generalizing f with
  | nil => simp [registerAll]
  | cons p rest ih =>
      have hne : ¬ f.entries.length = DEFER_MAX := by
        simp only [List.length_cons] at h
        omega
      have step : registerAll f (p :: rest)
          = registerAll { f with entries := f.entries ++ [⟨p.1, p.2⟩] } rest := by
        rw [registerAll, deferReg, if_neg hne]
      rw [step, ih]
      · simp
      · simp only [List.length_append, List.length_cons, List.length_nil]
        simp only [List.length_cons] at h
        omega

theorem unwind_reaches (err : Int) (inner : List DeferFrame)
    (hinner : ∀ g ∈ inner, g.can_recover = false)
    (f : DeferFrame) (hf : f.can_recover = true) (rest : List DeferFrame) :
    unwind err true (inner ++ f :: rest) =
      .recovered (longjmpVal err) f rest (unwoundActions inner) := by
  induction inner with
  | nil => simp [unwind, hf, unwoundActions]
  | cons g gs ih =>
      have hg : g.can_recover = false := hinner g (List.mem_cons_self g gs)
      rw [List.cons_append, unwind]
      rw [ih (fun x hx => hinner x (List.mem_cons_of_mem g hx))]
      simp [hg, unwoundActions]

theorem take_append_length (v l : List Nat) : (v ++ l).take v.length = v :=
  List.take_left v l

/-! ## Claims -/

/-- C1: for every try/catch/finally block and every outcome of the guarded
body, the stages run in exactly this order: the try body only when no
exception is pending at scope entry; then, if an exception is pending,
the first catch clause in declaration order whose guard matches
(catch_any matching unconditionally); then the finally body, exactly
once, regardless of whether an exception was thrown or caught. -/
theorem C1_try_catch_finally_order (clauses : List Clause) (pending : Bool)
    (rec0 : ERec) (act : TryAction) :
    (runScope clauses pending rec0 act).events =
      tryEvents pending
        ++ catchEvents clauses (errorAfterTry pending act) (recAfterTry pending rec0 act)
        ++ finallyEvents clauses := by
  rw [runScope_foldl]
  show (stageFinally _ _).events = _
  rw [stageFinally_events, stageCatch_events, stageTry_run]
  simp

/-- C2: a value thrown as `throw(T, v)` with sizeof(T) at most 128 and
caught by an enclosing `catch(T, e)` is observed byte-for-byte identical
to `v`: the bytes are memcpy'd into the thread-local record's payload and
the catch binding reads back exactly those bytes. -/
theorem C2_catch_binds_thrown_bytes (tag : String) (v : List Nat) (r : ERec)
    (hsize : v.length ≤ EXCEPT_MAX_THROWABLE_SIZE) :
    (runScope [Clause.catchCl tag v.length .normal, Clause.finallyCl]
        false r (.throws tag v)).events
      = [Event.tryBody, Event.catchBody 0 v, Event.finallyBody 1] := by
  simp [runScope, stageStep, stageTry, stageCatch, stageFinally, findFirst,
    clauseMatches, isFinallyClause, throwUpdate, take_append_length]

/-- C2 witness: throwing the four bytes of `int 5` binds exactly those
bytes in the catch clause. -/
theorem C2_catch_binds_thrown_bytes_witness :
    ([5, 0, 0, 0] : List Nat).length ≤ EXCEPT_MAX_THROWABLE_SIZE
    ∧ (runScope [Clause.catchCl "int" [5, 0, 0, 0].length .normal, Clause.finallyCl]
        false ⟨List.replicate 128 0, none⟩ (.throws "int" [5, 0, 0, 0])).events
      = [Event.tryBody, Event.catchBody 0 [5, 0, 0, 0], Event.finallyBody 1] :=
  ⟨by decide,
   C2_catch_binds_thrown_bytes "int" [5, 0, 0, 0] ⟨List.replicate 128 0, none⟩ (by decide)⟩

/-- C7: `rethrow()` inside a catch block leaves the exception record
untouched (no payload copy, tag preserved), the scope's finally still
runs before propagation, stage PROPAGATE re-enters the throw algorithm,
and the next enclosing scope observes exactly the original tag and
payload. -/
theorem C7_rethrow_preserves_record (tag : String) (v : List Nat) (r : ERec)
    (hsize : v.length ≤ EXCEPT_MAX_THROWABLE_SIZE) :
    (runScope [Clause.catchCl tag v.length .rethrows, Clause.finallyCl]
        false r (.throws tag v)).propagates = true
    ∧ (runScope [Clause.catchCl tag v.length .rethrows, Clause.finallyCl]
        false r (.throws tag v)).events
      = [Event.tryBody, Event.catchBody 0 v, Event.finallyBody 1]
    ∧ (runScope [Clause.catchCl tag v.length .rethrows, Clause.finallyCl]
        false r (.throws tag v)).erec = throwUpdate r (some tag) v
    ∧ (runScope [Clause.catchCl tag v.length .normal] true
        (runScope [Clause.catchCl tag v.length .rethrows, Clause.finallyCl]
          false r (.throws tag v)).erec .normal).events
      = [Event.catchBody 0 v] := by
  refine ⟨?_, ?_, ?_, ?_⟩ <;>
    simp [runScope, stageStep, stageTry, stageCatch, stageFinally, findFirst,
      clauseMatches, isFinallyClause, throwUpdate, take_append_length]

/-- C7 witness: rethrowing `int 5` propagates it unchanged to the
enclosing scope. -/
theorem C7_rethrow_preserves_record_witness :
    ([5, 0, 0, 0] : List Nat).length ≤ EXCEPT_MAX_THROWABLE_SIZE
    ∧ ((runScope [Clause.catchCl "int" [5, 0, 0, 0].length .rethrows, Clause.finallyCl]
          false ⟨List.replicate 128 0, none⟩ (.throws "int" [5, 0, 0, 0])).propagates = true
      ∧ (runScope [Clause.catchCl "int" [5, 0, 0, 0].length .rethrows, Clause.finallyCl]
          false ⟨List.replicate 128 0, none⟩ (.throws "int" [5, 0, 0, 0])).events
        = [Event.tryBody, Event.catchBody 0 [5, 0, 0, 0], Event.finallyBody 1]
      ∧ (runScope [Clause.catchCl "int" [5, 0, 0, 0].length .rethrows, Clause.finallyCl]
          false ⟨List.replicate 128 0, none⟩ (.throws "int" [5, 0, 0, 0])).erec
        = throwUpdate ⟨List.replicate 128 0, none⟩ (some "int") [5, 0, 0, 0]
      ∧ (runScope [Clause.catchCl "int" [5, 0, 0, 0].length .normal] true
          (runScope [Clause.catchCl "int" [5, 0, 0, 0].length .rethrows, Clause.finallyCl]
            false ⟨List.replicate 128 0, none⟩ (.throws "int" [5, 0, 0, 0])).erec .normal).events
        = [Event.catchBody 0 [5, 0, 0, 0]]) :=
  ⟨by decide,
   C7_rethrow_preserves_record "int" [5, 0, 0, 0] ⟨List.replicate 128 0, none⟩ (by decide)⟩

/-- C8 counterexample: after a catch clause consumes the exception
(the scope completes without propagating), the thread-local record still
carries the non-empty type tag "int" — the claimed "non-empty iff an
exception is in flight" invariant fails, because __EXCEPT_CATCH clears
only the scope-local `__except_error` and never resets `current_id`. -/
theorem C8_tag_iff_in_flight_counterexample :
    (runScope [Clause.catchCl "int" 4 .normal] false ⟨List.replicate 128 0, none⟩
        (.throws "int" [5, 0, 0, 0])).propagates = false
    ∧ (runScope [Clause.catchCl "int" 4 .normal] false ⟨List.replicate 128 0, none⟩
        (.throws "int" [5, 0, 0, 0])).erec.current_id = some "int" :=
  ⟨rfl, rfl⟩

/-- C8 amended: while an exception is in flight the record's tag is the
pending exception's tag, but consumption by a catch clause clears only
the per-scope error flag: the record keeps the consumed exception's tag
and payload, so a non-empty tag means a throw has occurred on the
thread, not that an exception is currently in flight. -/
theorem C8_tag_persists_after_catch (tag : String) (v : List Nat) (r : ERec) :
    (runScope [Clause.catchCl tag v.length .normal] false r (.throws tag v)).propagates
      = false
    ∧ (runScope [Clause.catchCl tag v.length .normal] false r (.throws tag v)).erec
      = throwUpdate r (some tag) v := by
  constructor <;>
    simp [runScope, stageStep, stageTry, stageCatch, stageFinally, findFirst,
      clauseMatches, isFinallyClause, throwUpdate]

/-- C6: a throw (or rethrow) with an empty try-scope stack runs the
unhandled path — with the default NULL hook it prints the pending
exception's type tag to stderr — and then terminates only the calling
thread via `thrd_exit(EXIT_FAILURE)`; the outcome is never a
process-wide termination. -/
theorem C6_unhandled_exits_thread_only (id : Option String) (bytes : List Nat)
    (r : ERec) (tag : String)
    (h : (throwUpdate r id bytes).current_id = some tag) :
    exceptThrow false id bytes r
      = (throwUpdate r id bytes,
         .unhandledTermination ("Unhandled exception of type \x22" ++ tag ++ "\x22\n")
           (.threadExit EXIT_FAILURE))
    ∧ ∀ msg, (exceptThrow false id bytes r).2
        ≠ ThrowOutcome.unhandledTermination msg ExitKind.processAbort := by
  constructor
  · simp [exceptThrow, unhandledMessage, h]
  · intro msg
    simp [exceptThrow, unhandledMessage, h]

/-- C6 witness: an uncaught `throw(int, 5)` with no enclosing scope. -/
theorem C6_unhandled_exits_thread_only_witness :
    (throwUpdate ⟨List.replicate 128 0, none⟩ (some "int") [5]).current_id = some "int"
    ∧ (exceptThrow false (some "int") [5] ⟨List.replicate 128 0, none⟩
        = (throwUpdate ⟨List.replicate 128 0, none⟩ (some "int") [5],
           .unhandledTermination ("Unhandled exception of type \x22" ++ "int" ++ "\x22\n")
             (.threadExit EXIT_FAILURE))
      ∧ ∀ msg, (exceptThrow false (some "int") [5] ⟨List.replicate 128 0, none⟩).2
          ≠ ThrowOutcome.unhandledTermination msg ExitKind.processAbort) :=
  ⟨rfl,
   C6_unhandled_exits_thread_only (some "int") [5] ⟨List.replicate 128 0, none⟩ "int" rfl⟩

/-- C5: calling `defer` on a frame already holding DEFER_MAX = 16 pairs
logs the DEFER_FRAME_OVERFLOW diagnostic and aborts the whole process
(`abort()`, not a thread exit); no 17th pair is ever stored. -/
theorem C5_defer_overflow_aborts_process (f : DeferFrame) (c a : Nat)
    (hfull : f.entries.length = DEFER_MAX) :
    deferReg f c a = .aborted overflowMessage .processAbort
    ∧ ∀ f2, deferReg f c a ≠ .registered f2 := by
  constructor
  · simp [deferReg, hfull]
  · intro f2
    simp [deferReg, hfull]

/-- C5 witness: a frame holding sixteen pairs. -/
theorem C5_defer_overflow_aborts_process_witness :
    (⟨List.replicate 16 ⟨0, 0⟩, false, false⟩ : DeferFrame).entries.length = DEFER_MAX
    ∧ (deferReg ⟨List.replicate 16 ⟨0, 0⟩, false, false⟩ 1 2
        = .aborted overflowMessage .processAbort
      ∧ ∀ f2, deferReg ⟨List.replicate 16 ⟨0, 0⟩, false, false⟩ 1 2 ≠ .registered f2) :=
  ⟨rfl, C5_defer_overflow_aborts_process ⟨List.replicate 16 ⟨0, 0⟩, false, false⟩ 1 2 rfl⟩

/-- C4: registering n ≤ 16 (handler, argument) pairs in a scope succeeds,
and at scope exit deregistration invokes each registered pair exactly
once, most recently registered first, with the frame unlinked from the
thread-local stack only after all invocations. -/
theorem C4_deferred_pairs_run_in_reverse (ps : List (Nat × Nat))
    (h : ps.length ≤ DEFER_MAX) :
    registerAll freshFrame ps
      = some ⟨ps.map (fun p => ⟨p.1, p.2⟩), false, false⟩
    ∧ deregisterTrace ⟨ps.map (fun p => ⟨p.1, p.2⟩), false, false⟩
      = (ps.reverse.map (fun p => DAction.invoke p.1 p.2)) ++ [DAction.unlink] := by
  constructor
  · rw [registerAll_ok ps freshFrame (by simpa [freshFrame] using h)]
    simp [freshFrame]
  · rw [deregisterTrace]
    show deregRunFrom (ps.map (fun p => ⟨p.1, p.2⟩))
        (ps.map (fun p => (⟨p.1, p.2⟩ : DeferEntry))).length ++ _ = _
    rw [deregRunFrom_eq_reverse]
    simp [List.map_map, Function.comp]

/-- C4 witness: two registrations run in reverse order before unlink. -/
theorem C4_deferred_pairs_run_in_reverse_witness :
    ([(1, 10), (2, 20)] : List (Nat × Nat)).length ≤ DEFER_MAX
    ∧ (registerAll freshFrame [(1, 10), (2, 20)]
        = some ⟨[(1, 10), (2, 20)].map (fun p => ⟨p.1, p.2⟩), false, false⟩
      ∧ deregisterTrace ⟨[(1, 10), (2, 20)].map (fun p => ⟨p.1, p.2⟩), false, false⟩
        = ([(1, 10), (2, 20)].reverse.map (fun p => DAction.invoke p.1 p.2))
            ++ [DAction.unlink]) :=
  ⟨by decide, C4_deferred_pairs_run_in_reverse [(1, 10), (2, 20)] (by decide)⟩

/-- C3: `panic(code)` with `code ≠ 0`, with the innermost marked frame
`f` somewhere above the panic site, deregisters every frame between the
panic site and `f` (running their pending cleanups, innermost first),
then transfers control to `f`'s captured continuation where `recover()`
returns `code`; `f` stays the current frame with its own pending
cleanups not run. -/
theorem C3_panic_transfers_to_recovery (code : Int) (hcode : code ≠ 0)
    (inner : List DeferFrame) (hinner : ∀ g ∈ inner, g.can_recover = false)
    (f : DeferFrame) (hf : f.can_recover = true) (rest : List DeferFrame) :
    panicRun code (inner ++ f :: rest)
      = .recoveredAt code f (f :: rest) (unwoundActions inner) := by
  rw [panicRun, unwind_reaches code inner hinner f hf rest]
  simp [longjmpVal, hcode]

/-- C3 witness: a panic below one unmarked frame reaches the marked
frame above it, running only the unmarked frame's cleanup. -/
theorem C3_panic_transfers_to_recovery_witness :
    (22 : Int) ≠ 0
    ∧ (∀ g ∈ [(⟨[⟨1, 10⟩], false, false⟩ : DeferFrame)], g.can_recover = false)
    ∧ (⟨[⟨2, 20⟩], true, false⟩ : DeferFrame).can_recover = true
    ∧ panicRun 22 ([⟨[⟨1, 10⟩], false, false⟩] ++ (⟨[⟨2, 20⟩], true, false⟩ : DeferFrame) :: [])
      = .recoveredAt 22 ⟨[⟨2, 20⟩], true, false⟩ [⟨[⟨2, 20⟩], true, false⟩]
          (unwoundActions [⟨[⟨1, 10⟩], false, false⟩]) :=
  ⟨by decide, by decide, rfl,
   C3_panic_transfers_to_recovery 22 (by decide) [⟨[⟨1, 10⟩], false, false⟩] (by decide)
     ⟨[⟨2, 20⟩], true, false⟩ rfl []⟩

/-- C9 counterexample: two nested scopes that each call `recover()`
yield a reachable stack on which two frames are simultaneously marked
as recovery targets, refuting "at most one CleanupFrame per thread is
the designated recovery target at any instant". -/
theorem C9_single_target_counterexample :
    runOps [] [.enterScope, .callRecover, .enterScope, .callRecover]
      = some [⟨[], true, false⟩, ⟨[], true, false⟩]
    ∧ countMarked [⟨[], true, false⟩, ⟨[], true, false⟩] = 2 :=
  ⟨rfl, rfl⟩

/-- C9 amended: within a single frame a repeated `recover()` call merely
re-marks that same frame (the same `can_recover` flag and the same saved
context, so the most recent call wins) and creates no additional marked
frame; however, distinct nested frames may each be marked simultaneously,
and an unwinding panic selects the innermost marked frame. -/
theorem C9_remark_same_frame (f : DeferFrame) (rest : List DeferFrame) :
    applyOp (f :: rest) .callRecover = some ({ f with can_recover := true } :: rest)
    ∧ runOps (f :: rest) [.callRecover, .callRecover]
      = runOps (f :: rest) [.callRecover]
    ∧ (runOps (f :: rest) [.callRecover, .callRecover]).map countMarked
      = (runOps (f :: rest) [.callRecover]).map countMarked := by
  refine ⟨rfl, rfl, rfl⟩

/-- C10: once `recover()` has marked a frame, the mark persists for the
frame's lifetime: further `defer` registrations keep it, re-marking
leaves the identical frame, and every later recoverable panic that
reaches the frame — including a second panic after a first recovery,
whose post-recovery stack keeps the frame current — transfers to the
same frame's captured continuation without running that frame's own
cleanups. -/
theorem C10_mark_never_cleared (f : DeferFrame) (hf : f.can_recover = true)
    (c a : Nat) (e1 e2 : Int) (h1 : e1 ≠ 0) (h2 : e2 ≠ 0)
    (inner1 inner2 rest : List DeferFrame)
    (hi1 : ∀ g ∈ inner1, g.can_recover = false)
    (hi2 : ∀ g ∈ inner2, g.can_recover = false) :
    (∀ f2, deferReg f c a = .registered f2 → f2.can_recover = true)
    ∧ applyOp (f :: rest) .callRecover = some (f :: rest)
    ∧ panicRun e1 (inner1 ++ f :: rest)
      = .recoveredAt e1 f (f :: rest) (unwoundActions inner1)
    ∧ panicRun e2 (inner2 ++ f :: rest)
      = .recoveredAt e2 f (f :: rest) (unwoundActions inner2) := by
  refine ⟨?_, ?_, ?_, ?_⟩
  · intro f2 hreg
    by_cases hl : f.entries.length = DEFER_MAX
    · simp [deferReg, hl] at hreg
    · simp [deferReg, hl] at hreg
      rw [← hreg]
      exact hf
  · rcases f with ⟨es, cr, okf⟩
    simp at hf
    simp [applyOp, hf]
  · rw [panicRun, unwind_reaches e1 inner1 hi1 f hf rest]
    simp [longjmpVal, h1]
  · rw [panicRun, unwind_reaches e2 inner2 hi2 f hf rest]
    simp [longjmpVal, h2]

/-- C10 witness: a marked frame survives a defer registration, a
re-mark, and two successive panics from different nesting depths. -/
theorem C10_mark_never_cleared_witness :
    (⟨[⟨7, 70⟩], true, false⟩ : DeferFrame).can_recover = true
    ∧ (5 : Int) ≠ 0
    ∧ (9 : Int) ≠ 0
    ∧ (∀ g ∈ [(⟨[], false, false⟩ : DeferFrame)], g.can_recover = false)
    ∧ (∀ g ∈ ([] : List DeferFrame), g.can_recover = false)
    ∧ ((∀ f2, deferReg ⟨[⟨7, 70⟩], true, false⟩ 1 2 = .registered f2
          → f2.can_recover = true)
      ∧ applyOp ((⟨[⟨7, 70⟩], true, false⟩ : DeferFrame) :: []) .callRecover
        = some ((⟨[⟨7, 70⟩], true, false⟩ : DeferFrame) :: [])
      ∧ panicRun 5 ([⟨[], false, false⟩] ++ (⟨[⟨7, 70⟩], true, false⟩ : DeferFrame) :: [])
        = .recoveredAt 5 ⟨[⟨7, 70⟩], true, false⟩ [⟨[⟨7, 70⟩], true, false⟩]
            (unwoundActions [⟨[], false, false⟩])
      ∧ panicRun 9 ([] ++ (⟨[⟨7, 70⟩], true, false⟩ : DeferFrame) :: [])
        = .recoveredAt 9 ⟨[⟨7, 70⟩], true, false⟩ [⟨[⟨7, 70⟩], true, false⟩]
            (unwoundActions ([] : List DeferFrame))) :=
  ⟨rfl, by decide, by decide, by decide, by decide,
   C10_mark_never_cleared ⟨[⟨7, 70⟩], true, false⟩ rfl 1 2 5 9 (by decide) (by decide)
     [⟨[], false, false⟩] [] [] (by decide) (by decide)⟩

end TinyCLibs
